import Mathlib

set_option maxRecDepth 8000

/-!
Verification of the Tg-forward-bot relay (src/main.py) against its
natural-language specification.  The Python module is shallowly embedded:
pure fragments become Lean functions, each handler becomes a function from
its inputs to the list of observable effects it performs (transport calls
and log records, in program order), and the exception raised by the
copy-message transport call is passed in as an `Except` value so that both
the success and the failure branch of the handler are covered.
-/

namespace TgForwardBot

/-- Value of the Python built-in int() applied to the all-digit tail of an
environment string: `none` models the ValueError raised on a non-numeric
literal.  Digit-group underscores of Python 3 literals are not modelled; no
claim depends on them. -/
def digitsVal (cs : List Char) : Option Nat :=
  if cs = [] then none
  else if cs.all Char.isDigit then
    some (cs.foldl (fun n c => 10 * n + (c.toNat - 48)) 0)
  else none

/-- Leading and trailing whitespace stripped from a character list, as
str.strip() does before int() parses a literal (ASCII whitespace only; the
extra unicode blanks Python also strips are not modelled and no claim
depends on them). -/
def pyStrip (cs : List Char) : List Char :=
  ((cs.dropWhile Char.isWhitespace).reverse.dropWhile Char.isWhitespace).reverse

/-- Python int(s) on a string: surrounding whitespace is stripped, an
optional sign is accepted, the rest must be decimal digits; otherwise a
ValueError is raised, modelled as `none` (src/main.py lines 27-28 coerce
the two channel ids this way). -/
def pyInt (s : String) : Option Int :=
  match pyStrip s.data with
  | '+' :: rest => (digitsVal rest).map Int.ofNat
  | '-' :: rest => (digitsVal rest).map fun n => -(n : Int)
  | cs => (digitsVal cs).map Int.ofNat

/-- The three configuration values loaded at module level
(src/main.py lines 24-28). -/
structure Config where
  TOKEN : String
  SOURCE_CHAT_ID : Int
  DESTINATION_CHAT_ID : Int
deriving DecidableEq, Repr

/-- The exception caught by the module-level try/except
(src/main.py line 29): a KeyError for a missing environment variable, or a
ValueError for a channel id that fails integer coercion.  The key of the
invalid binding is kept for bookkeeping but, exactly as in Python, it does
not appear in the rendered ValueError text. -/
inductive ConfigError where
  | missing (key : String)
  | invalid (key : String) (val : String)
deriving DecidableEq, Repr

/-- str(e) for the caught exception, as interpolated into the critical log
line: str of a KeyError is the quoted key, str of the ValueError raised by
int() is the standard message quoting the offending value (and not the
environment key). -/
def renderPyError : ConfigError → String
  | .missing key => "\x27" ++ key ++ "\x27"
  | .invalid _ val => "invalid literal for int() with base 10: \x27" ++ val ++ "\x27"

/-- The critical log line produced on a configuration failure
(src/main.py line 30). -/
def criticalMsg (e : ConfigError) : String :=
  "CRITICAL ERROR: Missing or invalid environment variable: " ++
    renderPyError e ++ ". Please check your hosting environment variables."

/-- Configuration loading (src/main.py lines 24-28): read TOKEN, then
GROUP_A_ID coerced to an integer, then GROUP_B_ID coerced to an integer,
stopping at the first missing key or failed coercion. -/
def loadConfig (env : String → Option String) : Except ConfigError Config :=
  match env "TOKEN" with
  | none => .error (.missing "TOKEN")
  | some tok =>
    match env "GROUP_A_ID" with
    | none => .error (.missing "GROUP_A_ID")
    | some a =>
      match pyInt a with
      | none => .error (.invalid "GROUP_A_ID" a)
      | some ai =>
        match env "GROUP_B_ID" with
        | none => .error (.missing "GROUP_B_ID")
        | some b =>
          match pyInt b with
          | none => .error (.invalid "GROUP_B_ID" b)
          | some bi => .ok ⟨tok, ai, bi⟩

/-- The environment keys read by the module-level configuration block, in
evaluation order; reading stops at the first failure, mirroring how the
KeyError or ValueError aborts the try block (src/main.py lines 24-28). -/
def envReads (env : String → Option String) : List String :=
  "TOKEN" :: match env "TOKEN" with
  | none => []
  | some _ =>
    "GROUP_A_ID" :: match env "GROUP_A_ID" with
    | none => []
    | some a =>
      match pyInt a with
      | none => []
      | some _ => ["GROUP_B_ID"]

/-- Outcome of running the module: either the process terminates inside the
except branch (src/main.py lines 29-32) carrying the critical log line and
the process exit status, or configuration loading succeeded and the program
proceeds with the loaded values.  Python exit() with no argument raises
SystemExit(None), which terminates the interpreter with exit status 0. -/
inductive StartupOutcome where
  | exited (criticalLog : String) (exitCode : Nat)
  | started (cfg : Config)
deriving DecidableEq, Repr

def startup (env : String → Option String) : StartupOutcome :=
  match loadConfig env with
  | .error e => .exited (criticalMsg e) 0
  | .ok cfg => .started cfg

/-- The long-running components launched under __main__
(src/main.py lines 92-111): the Flask keep-alive server and the bot
polling loop.  Both launches are reached only when the module-level
configuration block did not exit, since exit() at line 32 precedes them. -/
inductive Component where
  | flaskServer
  | botPolling
deriving DecidableEq, Repr

def startedComponents : StartupOutcome → List Component
  | .exited _ _ => []
  | .started _ => [.flaskServer, .botPolling]

/-- A chat, as far as the handlers inspect one: its integer id. -/
structure Chat where
  id : Int
deriving DecidableEq, Repr

/-- A user, as far as the handlers inspect one: its integer id. -/
structure User where
  id : Int
deriving DecidableEq, Repr

/-- A message, as far as the handlers and the dispatch filters inspect one:
its integer message_id, and the bot command it opens with (the bot_command
entity at offset 0 that filters.COMMAND and CommandHandler look at), or
`none` when the message is not a command invocation. -/
structure Message where
  messageId : Int
  command : Option String
deriving DecidableEq, Repr

/-- An inbound telegram Update, restricted to the fields the program reads:
update.effective_chat, update.message, update.effective_message and
update.effective_user, each of which may be absent. -/
structure Update where
  effectiveChat : Option Chat
  message : Option Message
  effectiveMessage : Option Message
  effectiveUser : Option User
deriving DecidableEq, Repr

/-- An observable effect of a handler invocation, in program order: an
outbound transport call (copy_message with its keyword arguments, or a
reply_text), or a log record at the level the source uses. -/
inductive Effect where
  | copyMessage (chatId fromChatId messageId : Int)
  | replyText (text : String)
  | logInfo (msg : String)
  | logWarning (msg : String)
  | logError (msg : String)
deriving DecidableEq, Repr

def Effect.isCopy : Effect → Bool
  | .copyMessage _ _ _ => true
  | _ => false

def Effect.isReply : Effect → Bool
  | .replyText _ => true
  | _ => false

def Effect.isInfoLog : Effect → Bool
  | .logInfo _ => true
  | _ => false

def Effect.isWarningLog : Effect → Bool
  | .logWarning _ => true
  | _ => false

def Effect.isErrorLog : Effect → Bool
  | .logError _ => true
  | _ => false

/-- Any log record, at any level. -/
def Effect.isLog (e : Effect) : Bool :=
  e.isInfoLog || e.isWarningLog || e.isErrorLog

/-- forward_message_handler (src/main.py lines 62-89).  The outcome of the
single copy_message transport call is supplied as `copyResult`: `.ok ()`
when the call returns, `.error e` when it raises an exception rendered as
the string e.  The returned list holds the effects the handler performs, in
order; that the function is total and returns a list in the `.error` case
embeds the fact that the except branch swallows the exception and the
coroutine returns normally. -/
def forward_message_handler (cfg : Config) (u : Update)
    (copyResult : Except String Unit) : List Effect :=
  match u.effectiveChat with
  | none => []
  | some chat =>
    if chat.id ≠ cfg.SOURCE_CHAT_ID then []
    else
      match u.effectiveMessage with
      | none => [.logWarning "Received an update with no effective message, ignoring."]
      | some message =>
        .copyMessage cfg.DESTINATION_CHAT_ID cfg.SOURCE_CHAT_ID message.messageId ::
        match copyResult with
        | .ok _ =>
          [.logInfo ("Successfully forwarded message_id: " ++
            toString message.messageId ++ " from " ++
            toString cfg.SOURCE_CHAT_ID ++ ".")]
        | .error e =>
          [.logError ("Failed to forward message_id: " ++
            toString message.messageId ++ ". Error: " ++ e)]

/-- ping_command (src/main.py lines 55-59).  The handler first awaits
update.message.reply_text and then logs update.effective_user.id; when
either attribute is None, Python raises an AttributeError at that point, so
only the effects already performed are observed. -/
def ping_command (u : Update) : List Effect :=
  match u.message with
  | none => []
  | some _ =>
    .replyText "Pong! I am alive and running." ::
    match u.effectiveUser with
    | none => []
    | some user =>
      [.logInfo ("Responded to /ping command from user " ++ toString user.id)]

/-- The two registered update handlers (src/main.py lines 100-105). -/
inductive Handler where
  | ping
  | relay
deriving DecidableEq, Repr

/-- Dispatch of one inbound update by the Application (src/main.py lines
100-105): handlers are tried in registration order within the default
group and at most one fires.  CommandHandler "ping" matches an update
whose effective message opens with the bot command ping;
MessageHandler(filters.ALL & ~filters.COMMAND) matches an update carrying
an effective message that is not a command invocation. -/
def dispatch (u : Update) : Option Handler :=
  match u.effectiveMessage with
  | none => none
  | some m =>
    if m.command = some "ping" then some .ping
    else if m.command = none then some .relay
    else none

/-- Effects produced by feeding one inbound update through the registered
handlers, given the outcome the transport would produce for a copy_message
call. -/
def processUpdate (cfg : Config) (u : Update)
    (copyResult : Except String Unit) : List Effect :=
  match dispatch u with
  | some .ping => ping_command u
  | some .relay => forward_message_handler cfg u copyResult
  | none => []

/-- An HTTP response of the Flask liveness server: status and body.  Flask
wraps a plain-string return value of a view in a 200 OK response. -/
structure HttpResponse where
  status : Nat
  body : String
deriving DecidableEq, Repr

/-- home (src/main.py lines 38-41): the view registered for the root
route returns a fixed string, which Flask serves with status 200. -/
def home : HttpResponse :=
  ⟨200, "Telegram Forwarder Bot is alive and running!"⟩

/-- The response the liveness server produces for a GET request to the
root path after the bot has processed any sequence of inbound updates
(each paired with the transport outcome of its copy attempt): the view
`home` closes over no bot state (src/main.py lines 38-41), so the response
is the constant `home` regardless of that history. -/
def serveRootAfter (_cfg : Config)
    (_events : List (Update × Except String Unit)) : HttpResponse :=
  home

/-- The process-wide state shared by the handlers: just the configuration
values loaded at startup.  Nothing in src/main.py assigns to TOKEN,
SOURCE_CHAT_ID or DESTINATION_CHAT_ID after lines 25-28, so each handler,
embedded as a state transformer, returns the state unchanged. -/
structure BotState where
  cfg : Config
deriving DecidableEq, Repr

def handleForward (s : BotState) (u : Update)
    (copyResult : Except String Unit) : BotState × List Effect :=
  (s, forward_message_handler s.cfg u copyResult)

def handlePing (s : BotState) (u : Update) : BotState × List Effect :=
  (s, ping_command u)

def handleHome (s : BotState) : BotState × HttpResponse :=
  (s, home)

/-- sub occurs as a contiguous substring of s. -/
def strContains (s sub : String) : Prop :=
  sub.data <:+: s.data

instance (s sub : String) : Decidable (strContains s sub) := by
  unfold strContains; infer_instance

/-- A middle piece of a concatenation occurs as a substring of it. -/
theorem strContains_middle (a b c : String) : strContains (a ++ b ++ c) b :=
  ⟨a.data, c.data, by simp [String.data_append]⟩

/-- A suffix of a concatenation occurs as a substring of it. -/
theorem strContains_suffix (a b : String) : strContains (a ++ b) b :=
  ⟨a.data, [], by simp [String.data_append]⟩

/-- Claim C1: for every inbound event whose originating chat id equals the
configured source id and which carries a message payload, the relay handler
issues exactly one copy-message call, with arguments (destination id,
source id, the id of that message) — whether the transport call succeeds
or raises. -/
theorem relay_copies_exactly_once (cfg : Config) (u : Update) (chat : Chat)
    (m : Message) (copyResult : Except String Unit)
    (hchat : u.effectiveChat = some chat)
    (hid : chat.id = cfg.SOURCE_CHAT_ID)
    (hmsg : u.effectiveMessage = some m) :
    (forward_message_handler cfg u copyResult).filter Effect.isCopy =
      [.copyMessage cfg.DESTINATION_CHAT_ID cfg.SOURCE_CHAT_ID m.messageId] := by
  cases copyResult <;>
    simp [forward_message_handler, hchat, hid, hmsg, Effect.isCopy]

theorem relay_copies_exactly_once_witness :
    (forward_message_handler ⟨"t", 100, 200⟩
        ⟨some ⟨100⟩, none, some ⟨55, none⟩, none⟩ (.ok ())).filter Effect.isCopy =
      [.copyMessage 200 100 55] :=
  relay_copies_exactly_once ⟨"t", 100, 200⟩
    ⟨some ⟨100⟩, none, some ⟨55, none⟩, none⟩ ⟨100⟩ ⟨55, none⟩ (.ok ())
    rfl rfl rfl

/-- Claim C2: for every inbound event whose originating chat id differs
from the configured source id, the relay handler performs no effect at
all — no copy-message call and no log record. -/
theorem relay_mismatch_silent (cfg : Config) (u : Update) (chat : Chat)
    (copyResult : Except String Unit)
    (hchat : u.effectiveChat = some chat)
    (hne : chat.id ≠ cfg.SOURCE_CHAT_ID) :
    forward_message_handler cfg u copyResult = [] := by
  simp [forward_message_handler, hchat, hne]

theorem relay_mismatch_silent_witness :
    forward_message_handler ⟨"t", 100, 200⟩
      ⟨some ⟨999⟩, none, some ⟨55, none⟩, none⟩ (.ok ()) = [] :=
  relay_mismatch_silent ⟨"t", 100, 200⟩
    ⟨some ⟨999⟩, none, some ⟨55, none⟩, none⟩ ⟨999⟩ (.ok ()) rfl (by decide)

/-- Claim C4: for every inbound event whose originating chat id matches
the configured source id but which carries no message payload, the relay
handler issues no copy-message call and performs exactly one warning-level
log record, then returns. -/
theorem relay_missing_message_warns (cfg : Config) (u : Update) (chat : Chat)
    (copyResult : Except String Unit)
    (hchat : u.effectiveChat = some chat)
    (hid : chat.id = cfg.SOURCE_CHAT_ID)
    (hmsg : u.effectiveMessage = none) :
    forward_message_handler cfg u copyResult =
        [.logWarning "Received an update with no effective message, ignoring."]
      ∧ (forward_message_handler cfg u copyResult).countP Effect.isCopy = 0
      ∧ (forward_message_handler cfg u copyResult).countP Effect.isWarningLog = 1 := by
  refine ⟨?_, ?_, ?_⟩ <;>
    simp [forward_message_handler, hchat, hid, hmsg, Effect.isCopy,
      Effect.isWarningLog]

theorem relay_missing_message_warns_witness :
    forward_message_handler ⟨"t", 100, 200⟩ ⟨some ⟨100⟩, none, none, none⟩ (.ok ()) =
        [.logWarning "Received an update with no effective message, ignoring."]
      ∧ (forward_message_handler ⟨"t", 100, 200⟩
          ⟨some ⟨100⟩, none, none, none⟩ (.ok ())).countP Effect.isCopy = 0
      ∧ (forward_message_handler ⟨"t", 100, 200⟩
          ⟨some ⟨100⟩, none, none, none⟩ (.ok ())).countP Effect.isWarningLog = 1 :=
  relay_missing_message_warns ⟨"t", 100, 200⟩
    ⟨some ⟨100⟩, none, none, none⟩ ⟨100⟩ (.ok ()) rfl rfl rfl

/-- Claim C10: for every inbound event carrying no effective chat at all,
the relay handler returns silently — no copy-message call, no warning, no
log record — taking the same silent branch as a chat-id mismatch. -/
theorem relay_no_chat_silent (cfg : Config) (u : Update)
    (copyResult : Except String Unit)
    (hchat : u.effectiveChat = none) :
    forward_message_handler cfg u copyResult = [] := by
  simp [forward_message_handler, hchat]

theorem relay_no_chat_silent_witness :
    forward_message_handler ⟨"t", 100, 200⟩
      ⟨none, none, some ⟨55, none⟩, none⟩ (.ok ()) = [] :=
  relay_no_chat_silent ⟨"t", 100, 200⟩
    ⟨none, none, some ⟨55, none⟩, none⟩ (.ok ()) rfl

/-- Claim C3: when the copy-message call raises, the relay handler swallows
the exception and returns normally (it yields an effect list rather than
propagating), it performs exactly one error-level log record whose text
contains both the message id and the error detail, and it does not retry:
exactly one copy-message call appears in the trace. -/
theorem relay_error_swallowed (cfg : Config) (u : Update) (chat : Chat)
    (m : Message) (e : String)
    (hchat : u.effectiveChat = some chat)
    (hid : chat.id = cfg.SOURCE_CHAT_ID)
    (hmsg : u.effectiveMessage = some m) :
    forward_message_handler cfg u (.error e) =
        [.copyMessage cfg.DESTINATION_CHAT_ID cfg.SOURCE_CHAT_ID m.messageId,
         .logError ("Failed to forward message_id: " ++ toString m.messageId ++
           ". Error: " ++ e)]
      ∧ (forward_message_handler cfg u (.error e)).countP Effect.isErrorLog = 1
      ∧ (forward_message_handler cfg u (.error e)).countP Effect.isCopy = 1
      ∧ strContains ("Failed to forward message_id: " ++ toString m.messageId ++
          ". Error: " ++ e) (toString m.messageId)
      ∧ strContains ("Failed to forward message_id: " ++ toString m.messageId ++
          ". Error: " ++ e) e := by
  refine ⟨?_, ?_, ?_, ?_, ?_⟩
  · simp [forward_message_handler, hchat, hid, hmsg]
  · simp [forward_message_handler, hchat, hid, hmsg, Effect.isErrorLog,
      Effect.isCopy]
  · simp [forward_message_handler, hchat, hid, hmsg, Effect.isErrorLog,
      Effect.isCopy]
  · have h := strContains_middle "Failed to forward message_id: "
      (toString m.messageId) (". Error: " ++ e)
    simpa [strContains, String.data_append] using h
  · exact strContains_suffix
      ("Failed to forward message_id: " ++ toString m.messageId ++ ". Error: ") e

theorem relay_error_swallowed_witness :
    forward_message_handler ⟨"t", 100, 200⟩
        ⟨some ⟨100⟩, none, some ⟨55, none⟩, none⟩ (.error "Timed out") =
        [.copyMessage 200 100 55,
         .logError ("Failed to forward message_id: " ++ toString (55 : Int) ++
           ". Error: " ++ "Timed out")]
      ∧ (forward_message_handler ⟨"t", 100, 200⟩
          ⟨some ⟨100⟩, none, some ⟨55, none⟩, none⟩
          (.error "Timed out")).countP Effect.isErrorLog = 1
      ∧ (forward_message_handler ⟨"t", 100, 200⟩
          ⟨some ⟨100⟩, none, some ⟨55, none⟩, none⟩
          (.error "Timed out")).countP Effect.isCopy = 1
      ∧ strContains ("Failed to forward message_id: " ++ toString (55 : Int) ++
          ". Error: " ++ "Timed out") (toString (55 : Int))
      ∧ strContains ("Failed to forward message_id: " ++ toString (55 : Int) ++
          ". Error: " ++ "Timed out") "Timed out" :=
  relay_error_swallowed ⟨"t", 100, 200⟩
    ⟨some ⟨100⟩, none, some ⟨55, none⟩, none⟩ ⟨100⟩ ⟨55, none⟩ "Timed out"
    rfl rfl rfl

/-- A concrete environment whose GROUP_A_ID fails integer coercion while
TOKEN and GROUP_B_ID are fine. -/
def badEnv : String → Option String := fun k =>
  if k = "TOKEN" then some "t"
  else if k = "GROUP_A_ID" then some "abc"
  else if k = "GROUP_B_ID" then some "2"
  else none

/-- Claim C5, counterexample: with GROUP_A_ID bound to the non-numeric
string abc, the process does terminate before either component starts, but
the critical diagnostic is the ValueError text, which quotes the invalid
value and does not name the key GROUP_A_ID, and the exit status of the
bare exit() call is 0 — a normal exit, not the non-zero/abnormal code the
claim states. -/
theorem config_error_counterexample :
    startup badEnv =
        .exited ("CRITICAL ERROR: Missing or invalid environment variable: invalid literal for int() with base 10: \x27abc\x27. Please check your hosting environment variables.") 0
      ∧ ¬ strContains
          "CRITICAL ERROR: Missing or invalid environment variable: invalid literal for int() with base 10: \x27abc\x27. Please check your hosting environment variables."
          "GROUP_A_ID"
      ∧ ∀ cfg, startup badEnv ≠ .started cfg := by
  have h1 : startup badEnv =
      .exited ("CRITICAL ERROR: Missing or invalid environment variable: invalid literal for int() with base 10: \x27abc\x27. Please check your hosting environment variables.") 0 := by
    decide
  refine ⟨h1, by decide, ?_⟩
  intro cfg h
  rw [h1] at h
  exact StartupOutcome.noConfusion h

/-- Claim C5 as amended: if any required environment variable is absent or
a channel id fails integer coercion, the process emits one critical-level
diagnostic — naming the missing key when a variable is absent, and quoting
the invalid value (not the key) when coercion fails — and terminates
immediately, before either the liveness responder or the relay starts,
with exit status 0 (the normal exit produced by a bare exit() call). -/
theorem config_error_exits_before_start (env : String → Option String)
    (e : ConfigError) (h : loadConfig env = .error e) :
    startup env = .exited (criticalMsg e) 0
      ∧ startedComponents (startup env) = []
      ∧ (∀ key, e = ConfigError.missing key → strContains (criticalMsg e) key)
      ∧ (∀ key val, e = ConfigError.invalid key val →
          strContains (criticalMsg e) val) := by
  refine ⟨?_, ?_, ?_, ?_⟩
  · simp [startup, h]
  · simp [startup, h, startedComponents]
  · rintro key rfl
    have hmid := strContains_middle
      ("CRITICAL ERROR: Missing or invalid environment variable: " ++ "\x27")
      key ("\x27" ++ ". Please check your hosting environment variables.")
    simpa [strContains, criticalMsg, renderPyError, String.data_append] using hmid
  · rintro key val rfl
    have hmid := strContains_middle
      ("CRITICAL ERROR: Missing or invalid environment variable: " ++
        "invalid literal for int() with base 10: \x27")
      val ("\x27" ++ ". Please check your hosting environment variables.")
    simpa [strContains, criticalMsg, renderPyError, String.data_append] using hmid

/-- An environment binding none of the required keys. -/
def emptyEnv : String → Option String := fun _ => none

theorem config_error_exits_before_start_witness :
    startup emptyEnv = .exited (criticalMsg (.missing "TOKEN")) 0
      ∧ startedComponents (startup emptyEnv) = []
      ∧ (∀ key, ConfigError.missing "TOKEN" = ConfigError.missing key →
          strContains (criticalMsg (.missing "TOKEN")) key)
      ∧ (∀ key val, ConfigError.missing "TOKEN" = ConfigError.invalid key val →
          strContains (criticalMsg (.missing "TOKEN")) val) :=
  config_error_exits_before_start emptyEnv (.missing "TOKEN") rfl

/-- Claim C6: a GET request to the root path of the liveness server always
returns status 200 with the fixed non-empty confirmation body, no matter
which sequence of relay events the bot has processed. -/
theorem liveness_always_ok (cfg : Config)
    (events : List (Update × Except String Unit)) :
    serveRootAfter cfg events = home
      ∧ home.status = 200
      ∧ home.body ≠ "" :=
  ⟨rfl, rfl, by decide⟩

/-- The ping responder never performs a copy-message call, whichever of
its attribute accesses succeed. -/
theorem ping_command_no_copy (u : Update) :
    (ping_command u).countP Effect.isCopy = 0 := by
  unfold ping_command
  cases u.message <;> cases u.effectiveUser <;>
    simp [Effect.isCopy]

/-- Claim C7: an inbound event that is a command invocation (its effective
message opens with a bot command) is never dispatched to the relay
handler, and feeding it through the registered handlers produces no
copy-message call, whatever the configuration and transport outcome. -/
theorem commands_never_relayed (cfg : Config) (u : Update) (m : Message)
    (c : String) (copyResult : Except String Unit)
    (hmsg : u.effectiveMessage = some m)
    (hcmd : m.command = some c) :
    dispatch u ≠ some Handler.relay
      ∧ (processUpdate cfg u copyResult).countP Effect.isCopy = 0 := by
  have hd : dispatch u = some Handler.ping ∨ dispatch u = none := by
    unfold dispatch
    rw [hmsg]
    by_cases hping : c = "ping"
    · left; simp [hcmd, hping]
    · right; simp [hcmd, hping]
  constructor
  · rcases hd with hd | hd <;> simp [hd]
  · unfold processUpdate
    rcases hd with hd | hd <;> rw [hd]
    · exact ping_command_no_copy u
    · simp

theorem commands_never_relayed_witness :
    dispatch ⟨some ⟨100⟩, some ⟨56, some "ping"⟩, some ⟨56, some "ping"⟩,
        some ⟨7⟩⟩ ≠ some Handler.relay
      ∧ (processUpdate ⟨"t", 100, 200⟩
          ⟨some ⟨100⟩, some ⟨56, some "ping"⟩, some ⟨56, some "ping"⟩, some ⟨7⟩⟩
          (.ok ())).countP Effect.isCopy = 0 :=
  commands_never_relayed ⟨"t", 100, 200⟩
    ⟨some ⟨100⟩, some ⟨56, some "ping"⟩, some ⟨56, some "ping"⟩, some ⟨7⟩⟩
    ⟨56, some "ping"⟩ "ping" (.ok ()) rfl rfl

/-- Claim C8: on a ping command event (one carrying a message and an
effective user), the responder replies to the sender with the fixed
acknowledgment string and performs exactly one informational log record,
whose text contains the user id, and no copy-message call. -/
theorem ping_acknowledges (u : Update) (m : Message) (user : User)
    (hmsg : u.message = some m)
    (huser : u.effectiveUser = some user) :
    ping_command u =
        [.replyText "Pong! I am alive and running.",
         .logInfo ("Responded to /ping command from user " ++ toString user.id)]
      ∧ (ping_command u).countP Effect.isReply = 1
      ∧ (ping_command u).countP Effect.isInfoLog = 1
      ∧ (ping_command u).countP Effect.isCopy = 0
      ∧ strContains ("Responded to /ping command from user " ++ toString user.id)
          (toString user.id) := by
  refine ⟨?_, ?_, ?_, ?_, ?_⟩
  · simp [ping_command, hmsg, huser]
  · simp [ping_command, hmsg, huser, Effect.isReply]
  · simp [ping_command, hmsg, huser, Effect.isInfoLog]
  · exact ping_command_no_copy u
  · exact strContains_suffix "Responded to /ping command from user "
      (toString user.id)

theorem ping_acknowledges_witness :
    ping_command ⟨some ⟨100⟩, some ⟨56, some "ping"⟩, some ⟨56, some "ping"⟩,
        some ⟨7⟩⟩ =
        [.replyText "Pong! I am alive and running.",
         .logInfo ("Responded to /ping command from user " ++ toString (7 : Int))]
      ∧ (ping_command ⟨some ⟨100⟩, some ⟨56, some "ping"⟩,
          some ⟨56, some "ping"⟩, some ⟨7⟩⟩).countP Effect.isReply = 1
      ∧ (ping_command ⟨some ⟨100⟩, some ⟨56, some "ping"⟩,
          some ⟨56, some "ping"⟩, some ⟨7⟩⟩).countP Effect.isInfoLog = 1
      ∧ (ping_command ⟨some ⟨100⟩, some ⟨56, some "ping"⟩,
          some ⟨56, some "ping"⟩, some ⟨7⟩⟩).countP Effect.isCopy = 0
      ∧ strContains ("Responded to /ping command from user " ++ toString (7 : Int))
          (toString (7 : Int)) :=
  ping_acknowledges
    ⟨some ⟨100⟩, some ⟨56, some "ping"⟩, some ⟨56, some "ping"⟩, some ⟨7⟩⟩
    ⟨56, some "ping"⟩ ⟨7⟩ rfl rfl

/-- Claim C9: on a successful startup the three configuration values are
read from the environment exactly once each, in one pass, and every
invocation of the relay handler, the ping responder and the liveness view
leaves the process state (the loaded configuration) unchanged. -/
theorem config_read_once_and_immutable (env : String → Option String)
    (cfg : Config) (u : Update) (copyResult : Except String Unit)
    (h : loadConfig env = .ok cfg) :
    envReads env = ["TOKEN", "GROUP_A_ID", "GROUP_B_ID"]
      ∧ (envReads env).count "TOKEN" = 1
      ∧ (envReads env).count "GROUP_A_ID" = 1
      ∧ (envReads env).count "GROUP_B_ID" = 1
      ∧ (handleForward ⟨cfg⟩ u copyResult).1 = ⟨cfg⟩
      ∧ (handlePing ⟨cfg⟩ u).1 = ⟨cfg⟩
      ∧ (handleHome ⟨cfg⟩).1 = ⟨cfg⟩ := by
  have hreads : envReads env = ["TOKEN", "GROUP_A_ID", "GROUP_B_ID"] := by
    unfold loadConfig at h
    unfold envReads
    cases hT : env "TOKEN" with
    | none => rw [hT] at h; simp at h
    | some tok =>
      rw [hT] at h
      cases hA : env "GROUP_A_ID" with
      | none => rw [hA] at h; simp at h
      | some a =>
        rw [hA] at h
        cases hpa : pyInt a with
        | none => simp [hpa] at h
        | some ai => simp [hpa]
  refine ⟨hreads, ?_, ?_, ?_, rfl, rfl, rfl⟩ <;> rw [hreads] <;> decide

/-- An environment binding all three required keys to loadable values. -/
def goodEnv : String → Option String := fun k =>
  if k = "TOKEN" then some "t"
  else if k = "GROUP_A_ID" then some "100"
  else if k = "GROUP_B_ID" then some "200"
  else none

theorem config_read_once_and_immutable_witness :
    envReads goodEnv = ["TOKEN", "GROUP_A_ID", "GROUP_B_ID"]
      ∧ (envReads goodEnv).count "TOKEN" = 1
      ∧ (envReads goodEnv).count "GROUP_A_ID" = 1
      ∧ (envReads goodEnv).count "GROUP_B_ID" = 1
      ∧ (handleForward ⟨⟨"t", 100, 200⟩⟩
          ⟨some ⟨100⟩, none, some ⟨55, none⟩, none⟩ (.ok ())).1 = ⟨⟨"t", 100, 200⟩⟩
      ∧ (handlePing ⟨⟨"t", 100, 200⟩⟩
          ⟨some ⟨100⟩, none, some ⟨55, none⟩, none⟩).1 = ⟨⟨"t", 100, 200⟩⟩
      ∧ (handleHome ⟨⟨"t", 100, 200⟩⟩).1 = ⟨⟨"t", 100, 200⟩⟩ :=
  config_read_once_and_immutable goodEnv ⟨"t", 100, 200⟩
    ⟨some ⟨100⟩, none, some ⟨55, none⟩, none⟩ (.ok ()) rfl

end TgForwardBot
